import Mathlib

/-!
Shallow embedding of the ledger core of the Ai-finance backend
(backend/apps/finances/models.py, serializers.py, signals.py, apps.py).

Modelling conventions:
- Money is represented in integer cents (`Int`).  Every stored
  DecimalField in the source has `decimal_places=2`, so stored values are
  exact multiples of 0.01 and `Decimal.quantize(Decimal("0.01"))`, which
  the source applies to totals and to the two transfer legs, is the
  identity on such values; the embedding therefore works directly on the
  cent values.
- The database is a record of row lists.  Django querysets become list
  filters; `objects.create` appends a row and fires the `post_save`
  handlers; `save(update_fields=...)` rewrites the row with the matching
  primary key and fires `post_save` with `created=False`.
- `transaction.atomic()` blocks that raise are modelled by `Except`
  results: an `Except.error` outcome leaves the caller with the original
  database value, which is exactly the rollback semantics.
- Audit emission is registered twice in the source: the module-level
  `@receiver` handlers at the bottom of models.py, and the separate
  handler set that signals.register_signals() connects from
  FinancesConfig.ready().  Both run on every save/delete, so the
  embedding appends two audit entries per mutation event.
-/

namespace Finances

/-- Money in integer cents (exact two-decimal fixed point). -/
abbrev Money := Int

/-- Transaction.Type choices from models.py. -/
inductive TxType
  | income
  | expense
  | transfer
deriving DecidableEq

/-- Account row: the fields of models.Account that the ledger logic reads
(currency, initial_balance, cached balance). -/
structure Account where
  id : Nat
  currency : String
  initial_balance : Money
  balance : Money
deriving DecidableEq

/-- Transaction row from models.Transaction (ledger-relevant fields). -/
structure Transaction where
  id : Nat
  account : Nat
  amount : Money
  currency : String
  type : TxType
  related_transaction : Option Nat
deriving DecidableEq

/-- Adjustment row from models.Adjustment. -/
structure Adjustment where
  id : Nat
  account : Nat
  old_amount : Money
  new_amount : Money
  reason : String
  is_reversal : Bool
  reversal_of : Option Nat
deriving DecidableEq

/-- BalanceSnapshot row; (account, date) is unique_together in the source. -/
structure Snapshot where
  account : Nat
  date : Nat
  balance : Money
deriving DecidableEq

/-- AuditLog row (the fields the audit contract is about). -/
structure AuditEntry where
  object_type : String
  object_id : Nat
  action : String
deriving DecidableEq

/-- The database state: row lists plus primary-key counters. -/
structure DB where
  accounts : List Account
  transactions : List Transaction
  adjustments : List Adjustment
  snapshots : List Snapshot
  audit : List AuditEntry
  nextTx : Nat
  nextAdj : Nat
deriving DecidableEq

/-- Django `Sum(...)` aggregation returns NULL on an empty queryset; the
source writes `... or Decimal("0.00")` around it.  (The `or` also maps an
exact zero total to `Decimal("0.00")`, the same value.) -/
def sumOrZero (l : List Money) : Money :=
  match l with
  | [] => 0
  | l => l.sum

/-- Adjustment.delta property: `(new_amount - old_amount).quantize(0.01)`;
quantization is the identity on cent values. -/
def Adjustment.delta (a : Adjustment) : Money :=
  a.new_amount - a.old_amount

/-- Account.get_balance from models.py: initial_balance plus the
transaction-amount aggregate plus the adjustment `new - old` aggregate,
quantized to cents (identity here).  A pure read: it performs only
aggregation queries and returns the total without writing any state. -/
def Account.get_balance (acc : Account) (db : DB) : Money :=
  let tx_sum := sumOrZero ((db.transactions.filter
    (fun t => t.account == acc.id)).map (fun t => t.amount))
  let adj_sum := sumOrZero ((db.adjustments.filter
    (fun a => a.account == acc.id)).map Adjustment.delta)
  acc.initial_balance + tx_sum + adj_sum

/-- Write a new cached balance into the account row with the given pk
(`Account.objects.filter(pk=...).update(balance=...)`). -/
def DB.updateAccountBalance (db : DB) (accId : Nat) (b : Money) : DB :=
  { db with
      accounts := db.accounts.map
        (fun a => if a.id == accId then { a with balance := b } else a) }

/-- Errors raised inside Account.recalculate_balance: the unique
(account, date) constraint on BalanceSnapshot makes the plain
`objects.create` raise IntegrityError when a snapshot already exists. -/
inductive RecalcError
  | integrityError
deriving DecidableEq

/-- Account.recalculate_balance from models.py.  Inside one atomic block:
compute get_balance, update the cached balance, and, when save_snapshot,
`BalanceSnapshot.objects.create(...)` a row for today.  The create is not
guarded: if a snapshot for (account, today) already exists the insert
raises IntegrityError, the atomic block rolls back (modelled by the
error result carrying no new state), and the error propagates. -/
def Account.recalculate_balance (acc : Account) (db : DB)
    (save_snapshot : Bool) (today : Nat) : Except RecalcError (DB × Money) :=
  let new_balance := acc.get_balance db
  let db1 := db.updateAccountBalance acc.id new_balance
  if save_snapshot then
    if db.snapshots.any (fun s => s.account == acc.id && s.date == today) then
      .error .integrityError
    else
      .ok ({ db1 with
        snapshots := db1.snapshots ++ [⟨acc.id, today, new_balance⟩] },
        new_balance)
  else
    .ok (db1, new_balance)

/-- The state a caller observes after invoking recalculate_balance: the
updated database on success, the original database when the atomic block
rolled back. -/
def runRecalc (db : DB) (acc : Account) (save_snapshot : Bool)
    (today : Nat) : DB :=
  match acc.recalculate_balance db save_snapshot today with
  | .ok (db1, _) => db1
  | .error _ => db

/-- The signal handlers call `instance.account.recalculate_balance(
save_snapshot=False)` wrapped in a bare try/except; failures are
swallowed, leaving the state unchanged. -/
def recalcNoSnapshot (db : DB) (accId : Nat) : DB :=
  match db.accounts.find? (fun a => a.id == accId) with
  | none => db
  | some acc =>
    match acc.recalculate_balance db false 0 with
    | .ok (db1, _) => db1
    | .error _ => db

/-- AuditLog.objects.create with the fields the contract is about. -/
def appendAudit (db : DB) (otype : String) (oid : Nat)
    (action : String) : DB :=
  { db with audit := db.audit ++ [⟨otype, oid, action⟩] }

/-- post_save handling for a Transaction.  Two distinct handler
functions are attached to this signal: `_transaction_post_save`
registered by the `@receiver` decorator in models.py, and
`transaction_post_save` connected by signals.register_signals() from
FinancesConfig.ready().  Each recalculates the cached balance
(best-effort, no snapshot) and appends one audit entry. -/
def transactionPostSave (db : DB) (t : Transaction) (created : Bool) : DB :=
  let act := if created then "created" else "updated"
  let db1 := appendAudit (recalcNoSnapshot db t.account) "Transaction" t.id act
  appendAudit (recalcNoSnapshot db1 t.account) "Transaction" t.id act

/-- post_delete handling for a Transaction: the same double
registration, with action "deleted". -/
def transactionPostDelete (db : DB) (t : Transaction) : DB :=
  let db1 := appendAudit (recalcNoSnapshot db t.account) "Transaction" t.id ("deleted")
  appendAudit (recalcNoSnapshot db1 t.account) "Transaction" t.id ("deleted")

/-- post_save handling for an Adjustment (double registration as for
transactions). -/
def adjustmentPostSave (db : DB) (a : Adjustment) (created : Bool) : DB :=
  let act := if created then "created" else "updated"
  let db1 := appendAudit (recalcNoSnapshot db a.account) "Adjustment" a.id act
  appendAudit (recalcNoSnapshot db1 a.account) "Adjustment" a.id act

/-- post_delete handling for an Adjustment. -/
def adjustmentPostDelete (db : DB) (a : Adjustment) : DB :=
  let db1 := appendAudit (recalcNoSnapshot db a.account) "Adjustment" a.id ("deleted")
  appendAudit (recalcNoSnapshot db1 a.account) "Adjustment" a.id ("deleted")

/-- Transaction.objects.create: append the row with the next primary key
and fire the post_save handlers.  The model layer applies no validation
to amount, sign, or currency. -/
def createTransaction (db : DB) (accId : Nat) (amount : Money)
    (currency : String) (ty : TxType) : DB × Transaction :=
  let t : Transaction := ⟨db.nextTx, accId, amount, currency, ty, none⟩
  let db1 := { db with
    transactions := db.transactions ++ [t],
    nextTx := db.nextTx + 1 }
  (transactionPostSave db1 t true, t)

/-- Adjustment.objects.create. -/
def createAdjustment (db : DB) (accId : Nat) (old_amount new_amount : Money)
    (reason : String) : DB × Adjustment :=
  let a : Adjustment :=
    ⟨db.nextAdj, accId, old_amount, new_amount, reason, false, none⟩
  let db1 := { db with
    adjustments := db.adjustments ++ [a],
    nextAdj := db.nextAdj + 1 }
  (adjustmentPostSave db1 a true, a)

/-- instance.delete() for a Transaction: the row is removed, the
SET_NULL rule on related_transaction clears dangling counterpart links,
and the post_delete handlers fire. -/
def deleteTransaction (db : DB) (t : Transaction) : DB :=
  let db1 := { db with
    transactions :=
      (db.transactions.filter (fun t2 => t2.id != t.id)).map
        (fun t2 => if t2.related_transaction == some t.id then
          { t2 with related_transaction := none } else t2) }
  transactionPostDelete db1 t

/-- instance.delete() for an Adjustment, with SET_NULL on reversal_of. -/
def deleteAdjustment (db : DB) (a : Adjustment) : DB :=
  let db1 := { db with
    adjustments :=
      (db.adjustments.filter (fun a2 => a2.id != a.id)).map
        (fun a2 => if a2.reversal_of == some a.id then
          { a2 with reversal_of := none } else a2) }
  adjustmentPostDelete db1 a

/-- `save(update_fields=["related_transaction"])`: rewrite the row with
the matching primary key. -/
def DB.updateTx (db : DB) (t : Transaction) : DB :=
  { db with
      transactions := db.transactions.map
        (fun t2 => if t2.id == t.id then t else t2) }

/-- The ValueError raised by Transaction.create_transfer. -/
inductive TransferError
  | sameAccount
deriving DecidableEq

/-- Transaction.create_transfer from models.py.  Defaults the currency to
the from-account currency, rejects a same-account transfer, then inside
one atomic block creates the outflow row (amount negated, both legs
quantized to cents: identity here) on the from-account and the inflow row
on the to-account, both typed transfer and both stamped with the same
currency value, and links the two rows by saving each with
update_fields, which fires post_save again with created=False. -/
def Transaction.create_transfer (db : DB) (from_account to_account : Account)
    (amount : Money) (currency : Option String) :
    Except TransferError (DB × Transaction × Transaction) :=
  let cur := currency.getD from_account.currency
  if from_account.id == to_account.id then
    .error .sameAccount
  else
    let r1 := createTransaction db from_account.id (-amount) cur .transfer
    let db1 := r1.1
    let out0 := r1.2
    let r2 := createTransaction db1 to_account.id amount cur .transfer
    let db2 := r2.1
    let inc0 := r2.2
    let out1 := { out0 with related_transaction := some inc0.id }
    let db3 := transactionPostSave (db2.updateTx out1) out1 false
    let inc1 := { inc0 with related_transaction := some out0.id }
    let db4 := transactionPostSave (db3.updateTx inc1) inc1 false
    .ok (db4, out1, inc1)

/-- Errors raised by Adjustment.create_reverse.  `alreadyReversed` is the
ValueError from the explicit guard; `uniqueViolation` is the
IntegrityError from the one-to-one (unique) reversal_of column when a
reversal row pointing at the original already exists. -/
inductive ReverseError
  | alreadyReversed
  | uniqueViolation
deriving DecidableEq

/-- Adjustment.create_reverse from models.py.  The guard checks the
instance fields `orig.reversal_of` and `orig.is_reversal`; note that on
an original adjustment `reversal_of` stays null even after it has been
reversed (the link lives on the reversal row), so the guard only fires
for reversal rows.  The `objects.create` with `reversal_of=orig` then
hits the unique constraint whenever a reversal of `orig` already exists,
raising IntegrityError inside the atomic block (rollback).  On success
the handler appends the reversal row; the subsequent attempt to persist
`orig.reversed_by` calls `orig.save(update_fields=["reversed_by"])`,
which raises (reversed_by is not a concrete field) and is swallowed by
the bare except, so the original row is never modified. -/
def Adjustment.create_reverse (db : DB) (orig : Adjustment)
    (reasonHead : Option String) :
    Except ReverseError (DB × Adjustment) :=
  if orig.reversal_of.isSome || orig.is_reversal then
    .error .alreadyReversed
  else if db.adjustments.any (fun a => a.reversal_of == some orig.id) then
    .error .uniqueViolation
  else
    let rev : Adjustment :=
      { id := db.nextAdj, account := orig.account,
        old_amount := orig.new_amount, new_amount := orig.old_amount,
        reason := (reasonHead.getD ("Reversal of")) ++ " adjustment "
          ++ toString orig.id ++ ": " ++ orig.reason,
        is_reversal := true, reversal_of := some orig.id }
    let db1 := { db with
      adjustments := db.adjustments ++ [rev],
      nextAdj := db.nextAdj + 1 }
    .ok (adjustmentPostSave db1 rev true, rev)

/-- Validation errors raised by TransactionSerializer.validate. -/
inductive VError
  | amountRequired
  | zeroAmount
  | currencyMismatch
  | destRequired
  | sameDest
deriving DecidableEq

/-- The incoming attrs of TransactionSerializer on a create (no model
instance yet). -/
structure TxAttrs where
  account : Option Account
  currency : Option String
  ty : Option TxType
  amount : Option Money
  transfer_to_account : Option Account
deriving DecidableEq

/-- TransactionSerializer.validate from serializers.py, for the create
path (self.instance is None, so every `or getattr(self.instance, ...)`
falls back to None).  Python truthiness: a missing or zero amount and a
missing or empty currency string are falsy. -/
def TransactionSerializer.validate (attrs : TxAttrs) :
    Except VError TxAttrs :=
  let account := attrs.account
  let currency := match attrs.currency with
    | some c => if c == "" then none else some c
    | none => none
  let tx_type := attrs.ty
  let amount := match attrs.amount with
    | some a => if a == 0 then none else some a
    | none => none
  let dest_account := attrs.transfer_to_account
  match amount with
  | none => .error .amountRequired
  | some a =>
    if a == 0 then .error .zeroAmount
    else
      match account, currency with
      | some acc, some c =>
        if acc.currency != "" && c != acc.currency then
          .error .currencyMismatch
        else
          if tx_type == some TxType.transfer then
            match dest_account with
            | none => .error .destRequired
            | some d =>
              if acc.id == d.id then .error .sameDest else .ok attrs
          else .ok attrs
      | _, _ =>
        if tx_type == some TxType.transfer then
          match dest_account, account with
          | none, _ => .error .destRequired
          | some d, some acc =>
            if acc.id == d.id then .error .sameDest else .ok attrs
          | some _, none => .ok attrs
        else .ok attrs

/-! Helper lemmas about the embedding. -/

theorem sumOrZero_eq_sum (l : List Money) : sumOrZero l = l.sum := by
  cases l <;> simp [sumOrZero]

theorem get_balance_eq (acc : Account) (db : DB) :
    acc.get_balance db = acc.initial_balance
      + ((db.transactions.filter (fun t => t.account == acc.id)).map
          (fun t => t.amount)).sum
      + ((db.adjustments.filter (fun a => a.account == acc.id)).map
          Adjustment.delta).sum := by
  unfold Account.get_balance
  rw [sumOrZero_eq_sum, sumOrZero_eq_sum]

theorem recalcNoSnapshot_eq (db : DB) (i : Nat) :
    ∃ acs, recalcNoSnapshot db i = { db with accounts := acs } := by
  unfold recalcNoSnapshot Account.recalculate_balance DB.updateAccountBalance
  cases db.accounts.find? (fun a => a.id == i) with
  | none => exact ⟨db.accounts, rfl⟩
  | some acc => exact ⟨_, rfl⟩

theorem recalcNoSnapshot_transactions (db : DB) (i : Nat) :
    (recalcNoSnapshot db i).transactions = db.transactions := by
  obtain ⟨acs, h⟩ := recalcNoSnapshot_eq db i
  rw [h]

theorem recalcNoSnapshot_adjustments (db : DB) (i : Nat) :
    (recalcNoSnapshot db i).adjustments = db.adjustments := by
  obtain ⟨acs, h⟩ := recalcNoSnapshot_eq db i
  rw [h]

theorem recalcNoSnapshot_audit (db : DB) (i : Nat) :
    (recalcNoSnapshot db i).audit = db.audit := by
  obtain ⟨acs, h⟩ := recalcNoSnapshot_eq db i
  rw [h]

theorem recalcNoSnapshot_snapshots (db : DB) (i : Nat) :
    (recalcNoSnapshot db i).snapshots = db.snapshots := by
  obtain ⟨acs, h⟩ := recalcNoSnapshot_eq db i
  rw [h]

theorem recalcNoSnapshot_nextTx (db : DB) (i : Nat) :
    (recalcNoSnapshot db i).nextTx = db.nextTx := by
  obtain ⟨acs, h⟩ := recalcNoSnapshot_eq db i
  rw [h]

theorem recalcNoSnapshot_nextAdj (db : DB) (i : Nat) :
    (recalcNoSnapshot db i).nextAdj = db.nextAdj := by
  obtain ⟨acs, h⟩ := recalcNoSnapshot_eq db i
  rw [h]

theorem transactionPostSave_transactions (db : DB) (t : Transaction)
    (c : Bool) : (transactionPostSave db t c).transactions = db.transactions := by
  unfold transactionPostSave appendAudit
  simp [recalcNoSnapshot_transactions]

theorem transactionPostSave_adjustments (db : DB) (t : Transaction)
    (c : Bool) : (transactionPostSave db t c).adjustments = db.adjustments := by
  unfold transactionPostSave appendAudit
  simp [recalcNoSnapshot_adjustments]

theorem transactionPostSave_snapshots (db : DB) (t : Transaction)
    (c : Bool) : (transactionPostSave db t c).snapshots = db.snapshots := by
  unfold transactionPostSave appendAudit
  simp [recalcNoSnapshot_snapshots]

theorem transactionPostSave_nextTx (db : DB) (t : Transaction)
    (c : Bool) : (transactionPostSave db t c).nextTx = db.nextTx := by
  unfold transactionPostSave appendAudit
  simp [recalcNoSnapshot_nextTx]

theorem transactionPostSave_nextAdj (db : DB) (t : Transaction)
    (c : Bool) : (transactionPostSave db t c).nextAdj = db.nextAdj := by
  unfold transactionPostSave appendAudit
  simp [recalcNoSnapshot_nextAdj]

theorem transactionPostSave_audit (db : DB) (t : Transaction) (c : Bool) :
    (transactionPostSave db t c).audit = db.audit ++
      [⟨"Transaction", t.id, if c then "created" else "updated"⟩,
       ⟨"Transaction", t.id, if c then "created" else "updated"⟩] := by
  unfold transactionPostSave appendAudit
  simp [recalcNoSnapshot_audit]

theorem adjustmentPostSave_transactions (db : DB) (a : Adjustment)
    (c : Bool) : (adjustmentPostSave db a c).transactions = db.transactions := by
  unfold adjustmentPostSave appendAudit
  simp [recalcNoSnapshot_transactions]

theorem adjustmentPostSave_adjustments (db : DB) (a : Adjustment)
    (c : Bool) : (adjustmentPostSave db a c).adjustments = db.adjustments := by
  unfold adjustmentPostSave appendAudit
  simp [recalcNoSnapshot_adjustments]

theorem adjustmentPostSave_snapshots (db : DB) (a : Adjustment)
    (c : Bool) : (adjustmentPostSave db a c).snapshots = db.snapshots := by
  unfold adjustmentPostSave appendAudit
  simp [recalcNoSnapshot_snapshots]

theorem adjustmentPostSave_nextAdj (db : DB) (a : Adjustment)
    (c : Bool) : (adjustmentPostSave db a c).nextAdj = db.nextAdj := by
  unfold adjustmentPostSave appendAudit
  simp [recalcNoSnapshot_nextAdj]

theorem adjustmentPostSave_audit (db : DB) (a : Adjustment) (c : Bool) :
    (adjustmentPostSave db a c).audit = db.audit ++
      [⟨"Adjustment", a.id, if c then "created" else "updated"⟩,
       ⟨"Adjustment", a.id, if c then "created" else "updated"⟩] := by
  unfold adjustmentPostSave appendAudit
  simp [recalcNoSnapshot_audit]

theorem transactionPostDelete_audit (db : DB) (t : Transaction) :
    (transactionPostDelete db t).audit = db.audit ++
      [⟨"Transaction", t.id, "deleted"⟩, ⟨"Transaction", t.id, "deleted"⟩] := by
  unfold transactionPostDelete appendAudit
  simp [recalcNoSnapshot_audit]

theorem adjustmentPostDelete_audit (db : DB) (a : Adjustment) :
    (adjustmentPostDelete db a).audit = db.audit ++
      [⟨"Adjustment", a.id, "deleted"⟩, ⟨"Adjustment", a.id, "deleted"⟩] := by
  unfold adjustmentPostDelete appendAudit
  simp [recalcNoSnapshot_audit]

theorem createTransaction_snd (db : DB) (accId : Nat) (amt : Money)
    (cur : String) (ty : TxType) :
    (createTransaction db accId amt cur ty).2 =
      ⟨db.nextTx, accId, amt, cur, ty, none⟩ := rfl

theorem createTransaction_transactions (db : DB) (accId : Nat) (amt : Money)
    (cur : String) (ty : TxType) :
    (createTransaction db accId amt cur ty).1.transactions =
      db.transactions ++ [⟨db.nextTx, accId, amt, cur, ty, none⟩] := by
  unfold createTransaction
  simp [transactionPostSave_transactions]

theorem createTransaction_adjustments (db : DB) (accId : Nat) (amt : Money)
    (cur : String) (ty : TxType) :
    (createTransaction db accId amt cur ty).1.adjustments =
      db.adjustments := by
  unfold createTransaction
  simp [transactionPostSave_adjustments]

theorem createTransaction_nextTx (db : DB) (accId : Nat) (amt : Money)
    (cur : String) (ty : TxType) :
    (createTransaction db accId amt cur ty).1.nextTx = db.nextTx + 1 := by
  unfold createTransaction
  simp [transactionPostSave_nextTx]

theorem createTransaction_audit (db : DB) (accId : Nat) (amt : Money)
    (cur : String) (ty : TxType) :
    (createTransaction db accId amt cur ty).1.audit = db.audit ++
      [⟨"Transaction", db.nextTx, "created"⟩,
       ⟨"Transaction", db.nextTx, "created"⟩] := by
  unfold createTransaction
  simp [transactionPostSave_audit]

theorem createAdjustment_snd (db : DB) (accId : Nat) (o n : Money)
    (reason : String) :
    (createAdjustment db accId o n reason).2 =
      ⟨db.nextAdj, accId, o, n, reason, false, none⟩ := rfl

theorem createAdjustment_adjustments (db : DB) (accId : Nat) (o n : Money)
    (reason : String) :
    (createAdjustment db accId o n reason).1.adjustments =
      db.adjustments ++ [⟨db.nextAdj, accId, o, n, reason, false, none⟩] := by
  unfold createAdjustment
  simp [adjustmentPostSave_adjustments]

theorem createAdjustment_transactions (db : DB) (accId : Nat) (o n : Money)
    (reason : String) :
    (createAdjustment db accId o n reason).1.transactions =
      db.transactions := by
  unfold createAdjustment
  simp [adjustmentPostSave_transactions]

theorem createAdjustment_audit (db : DB) (accId : Nat) (o n : Money)
    (reason : String) :
    (createAdjustment db accId o n reason).1.audit = db.audit ++
      [⟨"Adjustment", db.nextAdj, "created"⟩,
       ⟨"Adjustment", db.nextAdj, "created"⟩] := by
  unfold createAdjustment
  simp [adjustmentPostSave_audit]

theorem updateTx_transactions (db : DB) (t : Transaction) :
    (db.updateTx t).transactions = db.transactions.map
      (fun t2 => if t2.id == t.id then t else t2) := rfl

theorem updateTx_adjustments (db : DB) (t : Transaction) :
    (db.updateTx t).adjustments = db.adjustments := rfl

theorem updateTx_audit (db : DB) (t : Transaction) :
    (db.updateTx t).audit = db.audit := rfl

theorem updateTx_nextTx (db : DB) (t : Transaction) :
    (db.updateTx t).nextTx = db.nextTx := rfl

/-- Rewriting the row with primary key `k` leaves a list untouched when
no row in it carries that key. -/
theorem map_updateRow_eq_self (l : List Transaction) (t : Transaction)
    (k : Nat) (h : ∀ t2 ∈ l, t2.id ≠ k) :
    l.map (fun t2 => if t2.id == k then t else t2) = l := by
  induction l with
  | nil => rfl
  | cons x xs ih =>
    simp only [List.map_cons]
    rw [if_neg, ih]
    · intro t2 ht2
      exact h t2 (List.mem_cons_of_mem _ ht2)
    · simp [h x (List.mem_cons_self x xs)]

/-- Balance shift under appended transactions: get_balance only changes
by the appended rows filtered to the account. -/
theorem get_balance_append (acc : Account) (db db' : DB)
    (ts : List Transaction)
    (htx : db'.transactions = db.transactions ++ ts)
    (hadj : db'.adjustments = db.adjustments) :
    acc.get_balance db' = acc.get_balance db +
      ((ts.filter (fun t => t.account == acc.id)).map (fun t => t.amount)).sum := by
  rw [get_balance_eq, get_balance_eq, htx, hadj, List.filter_append,
    List.map_append, List.sum_append]
  ring

/-- Full characterization of a successful create_transfer: the resulting
pair of rows, the final transaction list, the untouched adjustment list,
and the eight audit entries emitted by the four save events (each save
event fires both registered handler sets). -/
theorem create_transfer_spec (db : DB) (A B : Account) (amt : Money)
    (cur : Option String) (hAB : A.id ≠ B.id)
    (hWF : ∀ t ∈ db.transactions, t.id < db.nextTx) :
    ∃ db',
      Transaction.create_transfer db A B amt cur = .ok (db',
        ⟨db.nextTx, A.id, -amt, cur.getD A.currency, .transfer,
          some (db.nextTx + 1)⟩,
        ⟨db.nextTx + 1, B.id, amt, cur.getD A.currency, .transfer,
          some db.nextTx⟩) ∧
      db'.transactions = db.transactions ++
        [⟨db.nextTx, A.id, -amt, cur.getD A.currency, .transfer,
           some (db.nextTx + 1)⟩,
         ⟨db.nextTx + 1, B.id, amt, cur.getD A.currency, .transfer,
           some db.nextTx⟩] ∧
      db'.adjustments = db.adjustments ∧
      db'.audit = db.audit ++
        [⟨"Transaction", db.nextTx, "created"⟩,
         ⟨"Transaction", db.nextTx, "created"⟩,
         ⟨"Transaction", db.nextTx + 1, "created"⟩,
         ⟨"Transaction", db.nextTx + 1, "created"⟩,
         ⟨"Transaction", db.nextTx, "updated"⟩,
         ⟨"Transaction", db.nextTx, "updated"⟩,
         ⟨"Transaction", db.nextTx + 1, "updated"⟩,
         ⟨"Transaction", db.nextTx + 1, "updated"⟩] := by
  have hcond : ¬ ((A.id == B.id) = true) := by simp [hAB]
  have hfresh1 : ∀ t2 ∈ db.transactions, t2.id ≠ db.nextTx :=
    fun t ht => Nat.ne_of_lt (hWF t ht)
  have hfresh2 : ∀ t2 ∈ db.transactions, t2.id ≠ db.nextTx + 1 :=
    fun t ht => Nat.ne_of_lt (Nat.lt_succ_of_lt (hWF t ht))
  unfold Transaction.create_transfer
  rw [if_neg hcond]
  simp only [createTransaction_snd, createTransaction_nextTx]
  refine ⟨_, rfl, ?_, ?_, ?_⟩
  · simp only [transactionPostSave_transactions, updateTx_transactions,
      transactionPostSave_nextTx, createTransaction_transactions,
      createTransaction_nextTx, List.map_append]
    rw [map_updateRow_eq_self _ _ _ hfresh1]
    simp only [List.map_cons, List.map_nil, List.map_append]
    rw [map_updateRow_eq_self _ _ _ hfresh2]
    simp [hAB]
  · simp [transactionPostSave_adjustments, updateTx_adjustments,
      createTransaction_adjustments]
  · simp only [transactionPostSave_audit, updateTx_audit,
      createTransaction_audit, createTransaction_nextTx,
      transactionPostSave_nextTx]
    simp

/-! Concrete fixtures used by witnesses and counterexamples. -/

/-- A USD account with initial balance 100.00 and stale cached balance. -/
def accA : Account := ⟨1, "USD", 10000, 0⟩

/-- A EUR account with initial balance 50.00. -/
def accB : Account := ⟨2, "EUR", 5000, 0⟩

/-- A fresh two-account database. -/
def dbAB : DB := ⟨[accA, accB], [], [], [], [], 1, 1⟩

/-- The account of the concrete scenario of the spec: initial balance
100.00. -/
def acc7 : Account := ⟨7, "USD", 10000, 0⟩

/-- Scenario start: one account, empty ledger. -/
def db7 : DB := ⟨[acc7], [], [], [], [], 1, 1⟩

/-- Scenario after the expense transaction of -20.00. -/
def db7a : DB := (createTransaction db7 7 (-2000) "USD" .expense).1

/-- Scenario after the manual adjustment 100.00 -> 105.00. -/
def db7b : DB := (createAdjustment db7a 7 10000 10500 "Correction").1

/-- The adjustment row created in the scenario. -/
def adj7 : Adjustment := (createAdjustment db7a 7 10000 10500 "Correction").2

/-- Result of reversing the scenario adjustment. -/
def r9 : Except ReverseError (DB × Adjustment) :=
  Adjustment.create_reverse db7b adj7 none

/-- Scenario database after the reversal. -/
def db7c : DB :=
  match r9 with
  | .ok (d, _) => d
  | .error _ => db7b

/-- The reversal adjustment row created in the scenario. -/
def rev9 : Adjustment :=
  match r9 with
  | .ok (_, r) => r
  | .error _ => adj7

/-! Claim theorems. -/

/-- C1: for every account and every history of transactions and
adjustments (including the empty history), get_balance returns exactly
initial_balance plus the sum of the account transaction amounts plus the
sum of (new_amount - old_amount) over the account adjustments, in exact
fixed-point arithmetic (cents; the 2-decimal quantization is the identity
on cent values), and get_balance is a pure read that mutates no stored
state (it is a function of the database, returning only the total). -/
theorem get_balance_identity (db : DB) (acc : Account) :
    acc.get_balance db = acc.initial_balance
      + ((db.transactions.filter (fun t => t.account == acc.id)).map
          (fun t => t.amount)).sum
      + ((db.adjustments.filter (fun a => a.account == acc.id)).map
          Adjustment.delta).sum :=
  get_balance_eq acc db

/-- C7 counterexample: in the concrete scenario (initial 100.00, expense
-20.00, adjustment 100.00 -> 105.00, then reversal of that adjustment)
the code computes a final balance of 80.00, not the 60.00 the claim
states. -/
theorem scenario_balance_not_sixty :
    acc7.get_balance db7b = 8500 ∧ acc7.get_balance db7c ≠ 6000 := by
  decide

/-- C7 (amended): the concrete scenario yields get_balance() == 85.00
after the expense and the adjustment, and get_balance() == 80.00 after
reversing the adjustment (100 - 20 + 5 - 5; the reversal cancels the
adjustment contribution, leaving 80.00, not 60.00). -/
theorem scenario_balance_values :
    acc7.get_balance db7b = 8500 ∧ acc7.get_balance db7c = 8000 := by
  decide

/-- C2: for distinct accounts and a positive amount, create_transfer
succeeds and creates exactly two transfer-typed transactions whose
amounts are exact negatives summing to zero (both derived from the same
input, in exact cents), appended atomically to the transaction list, such
that get_balance of the source decreases by the amount and get_balance of
the destination increases by it.  The error branch is impossible, and an
error leaves the database unchanged, so both rows exist or neither
does. -/
theorem create_transfer_conservation (db : DB) (A B : Account)
    (amt : Money) (hAB : A.id ≠ B.id) (hpos : 0 < amt)
    (hWF : ∀ t ∈ db.transactions, t.id < db.nextTx) :
    match Transaction.create_transfer db A B amt none with
    | .error _ => False
    | .ok (db', out, inc) =>
        out.account = A.id ∧ out.amount = -amt ∧ out.type = .transfer ∧
        inc.account = B.id ∧ inc.amount = amt ∧ inc.type = .transfer ∧
        out.amount + inc.amount = 0 ∧
        db'.transactions = db.transactions ++ [out, inc] ∧
        A.get_balance db' = A.get_balance db - amt ∧
        B.get_balance db' = B.get_balance db + amt := by
  obtain ⟨db', hok, htx, hadj, haud⟩ :=
    create_transfer_spec db A B amt none hAB hWF
  rw [hok]
  have hBA : (B.id == A.id) = false := by simp [Ne.symm hAB]
  have hAB2 : (A.id == B.id) = false := by simp [hAB]
  refine ⟨rfl, rfl, rfl, rfl, rfl, rfl, by ring, htx, ?_, ?_⟩
  · rw [get_balance_append A db db' _ htx hadj]
    simp [List.filter, hBA, sub_eq_add_neg]
  · rw [get_balance_append B db db' _ htx hadj]
    simp [List.filter, hAB2]

/-- Witness for create_transfer_conservation: a concrete 30.00 transfer
between the two fixture accounts. -/
theorem create_transfer_conservation_witness :
    match Transaction.create_transfer dbAB accA accB 3000 none with
    | .error _ => False
    | .ok (db', out, inc) =>
        out.account = accA.id ∧ out.amount = -3000 ∧ out.type = .transfer ∧
        inc.account = accB.id ∧ inc.amount = 3000 ∧ inc.type = .transfer ∧
        out.amount + inc.amount = 0 ∧
        db'.transactions = dbAB.transactions ++ [out, inc] ∧
        accA.get_balance db' = accA.get_balance dbAB - 3000 ∧
        accB.get_balance db' = accB.get_balance dbAB + 3000 :=
  create_transfer_conservation dbAB accA accB 3000 (by decide) (by decide)
    (by simp [dbAB])

/-- C10: create_transfer applies no validation to the amount sign or
magnitude: for every amount, including zero and negative values, calling
it on two distinct accounts succeeds, storing -amount on the from-account
row and +amount on the to-account row. -/
theorem create_transfer_no_amount_validation (db : DB) (A B : Account)
    (amt : Money) (hAB : A.id ≠ B.id)
    (hWF : ∀ t ∈ db.transactions, t.id < db.nextTx) :
    match Transaction.create_transfer db A B amt none with
    | .error _ => False
    | .ok (_, out, inc) =>
        out.account = A.id ∧ out.amount = -amt ∧
        inc.account = B.id ∧ inc.amount = amt := by
  obtain ⟨db', hok, _, _, _⟩ := create_transfer_spec db A B amt none hAB hWF
  rw [hok]
  exact ⟨rfl, rfl, rfl, rfl⟩

/-- Witness for create_transfer_no_amount_validation: a negative-amount
transfer is accepted and moves money from the destination to the
source. -/
theorem create_transfer_no_amount_validation_witness :
    match Transaction.create_transfer dbAB accA accB (-700) none with
    | .error _ => False
    | .ok (_, out, inc) =>
        out.account = accA.id ∧ out.amount = -(-700) ∧
        inc.account = accB.id ∧ inc.amount = -700 :=
  create_transfer_no_amount_validation dbAB accA accB (-700) (by decide)
    (by simp [dbAB])

/-- An original adjustment that already has a reversal row pointing at
it, together with that reversal, in one database. -/
def origX : Adjustment := ⟨1, 7, 10000, 10500, "Correction", false, none⟩

/-- The existing reversal of origX. -/
def revX : Adjustment :=
  ⟨2, 7, 10500, 10000, "Reversal of adjustment 1: Correction", true, some 1⟩

/-- Database in which origX has already been reversed once. -/
def dbX : DB := ⟨[acc7], [], [origX, revX], [], [], 1, 3⟩

/-- C3 counterexample: reversing an adjustment that has already been
reversed once does not fail with the already-reversed (ValueError) guard
the claim describes — the guard inspects orig.reversal_of, which stays
null on the original — but with the database uniqueness violation on the
one-to-one reversal_of column. -/
theorem reverse_already_reversed_error_kind :
    Adjustment.create_reverse dbX origX none = .error .uniqueViolation ∧
    ReverseError.uniqueViolation ≠ ReverseError.alreadyReversed :=
  ⟨by rfl, by decide⟩

/-- C3 (amended): a second reversal is always rejected with no new
adjustment row (an error outcome leaves the database unchanged), but the
two precondition violations surface differently: reversing an adjustment
that is itself a reversal (or whose reversal_of is set) raises the
already-reversed ValueError, while a second reversal of a plain original
is stopped only by the unique one-to-one constraint on reversal_of,
raising IntegrityError. -/
theorem reverse_double_rejection (db : DB) (orig : Adjustment)
    (p : Option String) :
    (orig.is_reversal = true →
      Adjustment.create_reverse db orig p = .error .alreadyReversed) ∧
    (orig.reversal_of = none → orig.is_reversal = false →
      (∃ a ∈ db.adjustments, a.reversal_of = some orig.id) →
      Adjustment.create_reverse db orig p = .error .uniqueViolation) := by
  constructor
  · intro h
    unfold Adjustment.create_reverse
    rw [if_pos (by simp [h])]
  · intro h1 h2 h3
    unfold Adjustment.create_reverse
    rw [if_neg (by simp [h1, h2]), if_pos ?_]
    obtain ⟨a, ha, hrev⟩ := h3
    simp only [List.any_eq_true]
    exact ⟨a, ha, by simp [hrev]⟩

/-- Witness for reverse_double_rejection: both rejection channels at
concrete inputs. -/
theorem reverse_double_rejection_witness :
    (Adjustment.create_reverse dbX revX none = .error .alreadyReversed) ∧
    (Adjustment.create_reverse dbX origX none = .error .uniqueViolation) :=
  ⟨(reverse_double_rejection dbX revX none).1 (by decide),
   (reverse_double_rejection dbX origX none).2 (by decide) (by decide)
     ⟨revX, by decide, by decide⟩⟩

/-- C9: a successful create_reverse leaves every stored field of the
original adjustment row unchanged — the new reversal row is only
appended, and the attempted write of reversed_by onto the original fails
inside a swallowed except — so the original keeps is_reversal = false
and reversal_of = null, and the link is recorded only on the new row,
whose reversal_of points at the original. -/
theorem create_reverse_preserves_original (db : DB) (orig : Adjustment)
    (p : Option String) (db' : DB) (rev : Adjustment)
    (h : Adjustment.create_reverse db orig p = .ok (db', rev)) :
    orig.is_reversal = false ∧ orig.reversal_of = none ∧
    db'.adjustments = db.adjustments ++ [rev] ∧
    rev.is_reversal = true ∧ rev.reversal_of = some orig.id := by
  unfold Adjustment.create_reverse at h
  by_cases h1 : (orig.reversal_of.isSome || orig.is_reversal) = true
  · rw [if_pos h1] at h
    cases h
  · rw [if_neg h1] at h
    by_cases h2 :
        (db.adjustments.any fun a => a.reversal_of == some orig.id) = true
    · rw [if_pos h2] at h
      cases h
    · rw [if_neg h2] at h
      rw [Except.ok.injEq, Prod.mk.injEq] at h
      obtain ⟨hdb, hrev⟩ := h
      have horig1 : orig.reversal_of = none := by
        cases hx : orig.reversal_of with
        | none => rfl
        | some v => exact absurd (by simp [hx]) h1
      have horig2 : orig.is_reversal = false := by
        cases hx : orig.is_reversal
        · rfl
        · exact absurd (by simp [hx]) h1
      refine ⟨horig2, horig1, ?_, ?_, ?_⟩
      · rw [← hdb, ← hrev]
        simp [adjustmentPostSave_adjustments]
      · rw [← hrev]
      · rw [← hrev]

/-- Witness for create_reverse_preserves_original: the scenario
reversal. -/
theorem create_reverse_preserves_original_witness :
    adj7.is_reversal = false ∧ adj7.reversal_of = none ∧
    db7c.adjustments = db7b.adjustments ++ [rev9] ∧
    rev9.is_reversal = true ∧ rev9.reversal_of = some adj7.id :=
  create_reverse_preserves_original db7b adj7 none db7c rev9 rfl

/-- A database that already holds a snapshot for (account 7, day 5). -/
def dbSnap : DB := ⟨[acc7], [], [], [⟨7, 5, 9999⟩], [], 1, 1⟩

/-- C4 counterexample: when a snapshot for today already exists,
recalculate_balance(save_snapshot=True) does not succeed and does not
keep the cached-balance write — the IntegrityError propagates and the
enclosing atomic block rolls everything back, so the stale cached
balance (0) remains even though the recomputed balance is 100.00. -/
theorem snapshot_failure_not_swallowed :
    (Except.isOk (acc7.recalculate_balance dbSnap true 5)) = false ∧
    runRecalc dbSnap acc7 true 5 = dbSnap ∧
    acc7.get_balance dbSnap = 10000 ∧
    dbSnap.accounts = [acc7] ∧ acc7.balance = 0 ∧ (10000 : Money) ≠ 0 := by
  decide

/-- C4 (amended): when snapshot persistence is requested and a snapshot
for (account, today) already exists, the unguarded snapshot insert
raises IntegrityError inside the same atomic block as the cached-balance
write, so the error propagates to the caller and the cached-balance
update is rolled back: the caller-visible state is the original
database. -/
theorem snapshot_failure_rollback (db : DB) (acc : Account) (today : Nat)
    (h : ∃ s ∈ db.snapshots, s.account = acc.id ∧ s.date = today) :
    acc.recalculate_balance db true today = .error .integrityError ∧
    runRecalc db acc true today = db := by
  have hany :
      (db.snapshots.any fun s => s.account == acc.id && s.date == today)
        = true := by
    obtain ⟨s, hs, h1, h2⟩ := h
    simp only [List.any_eq_true]
    exact ⟨s, hs, by simp [h1, h2]⟩
  have herr : acc.recalculate_balance db true today = .error .integrityError := by
    unfold Account.recalculate_balance
    simp [hany]
  refine ⟨herr, ?_⟩
  unfold runRecalc
  rw [herr]

/-- Witness for snapshot_failure_rollback at the concrete database that
already has a snapshot for day 5. -/
theorem snapshot_failure_rollback_witness :
    acc7.recalculate_balance dbSnap true 5 = .error .integrityError ∧
    runRecalc dbSnap acc7 true 5 = dbSnap :=
  snapshot_failure_rollback dbSnap acc7 5 ⟨⟨7, 5, 9999⟩, by decide, rfl, rfl⟩

/-- An account and database for the same-day double recalculation. -/
def acc5 : Account := ⟨5, "USD", 4200, 0⟩

/-- Fresh single-account database for the snapshot idempotence check. -/
def db5 : DB := ⟨[acc5], [], [], [], [], 1, 1⟩

/-- Result of the first recalculate_balance(save_snapshot=True) call. -/
def r5 : Except RecalcError (DB × Money) := acc5.recalculate_balance db5 true 9

/-- Database after the first snapshot-persisting recalculation. -/
def db5a : DB :=
  match r5 with
  | .ok (d, _) => d
  | .error _ => db5

/-- Balance computed by the first call. -/
def b5 : Money :=
  match r5 with
  | .ok (_, b) => b
  | .error _ => 0

/-- C5 counterexample: the second same-day call does not succeed — the
unique (account, date) constraint makes the unguarded create raise — so
recalculate_balance with snapshot persistence is not idempotent per day
as claimed. -/
theorem snapshot_second_call_fails :
    (Except.isOk (acc5.recalculate_balance db5 true 9)) = true ∧
    (Except.isOk (acc5.recalculate_balance db5a true 9)) = false := by
  decide

/-- C5 (amended): after a first successful snapshot-persisting
recalculation on a day, exactly one snapshot row exists for the
(account, date) pair, holding the first computed balance; a second call
on the same day fails with IntegrityError (rolling back its own writes)
instead of overwriting, so the single row keeps the first value. -/
theorem snapshot_same_day_unique_row (db : DB) (acc : Account)
    (today : Nat) (db1 : DB) (b1 : Money)
    (h : acc.recalculate_balance db true today = .ok (db1, b1)) :
    acc.recalculate_balance db1 true today = .error .integrityError ∧
    db1.snapshots.filter
        (fun s => s.account == acc.id && s.date == today) =
      [⟨acc.id, today, b1⟩] := by
  unfold Account.recalculate_balance at h
  by_cases hany :
      (db.snapshots.any fun s => s.account == acc.id && s.date == today) = true
  · rw [if_pos rfl, if_pos hany] at h
    cases h
  · rw [if_pos rfl, if_neg hany] at h
    rw [Except.ok.injEq, Prod.mk.injEq] at h
    obtain ⟨hdb, hb⟩ := h
    have hsnaps : db1.snapshots =
        db.snapshots ++ [⟨acc.id, today, acc.get_balance db⟩] := by
      rw [← hdb]
      rfl
    have hfilter :
        db.snapshots.filter
          (fun s => s.account == acc.id && s.date == today) = [] := by
      rw [List.filter_eq_nil_iff]
      intro s hs
      intro hp
      exact hany (List.any_eq_true.mpr ⟨s, hs, hp⟩)
    constructor
    · have hany1 :
          (db1.snapshots.any fun s => s.account == acc.id && s.date == today)
            = true := by
        rw [hsnaps]
        simp [List.any_eq_true]
      unfold Account.recalculate_balance
      simp [hany1]
    · rw [hsnaps, List.filter_append, hfilter, ← hb]
      simp

/-- Witness for snapshot_same_day_unique_row at the concrete fresh
database. -/
theorem snapshot_same_day_unique_row_witness :
    acc5.recalculate_balance db5a true 9 = .error .integrityError ∧
    db5a.snapshots.filter
        (fun s => s.account == acc5.id && s.date == 9) =
      [⟨acc5.id, 9, b5⟩] :=
  snapshot_same_day_unique_row db5 acc5 9 db5a b5 rfl

/-- Result of a cross-currency transfer between the USD and EUR fixture
accounts. -/
def r6 : Except TransferError (DB × Transaction × Transaction) :=
  Transaction.create_transfer dbAB accA accB 500 none

/-- Database after the cross-currency transfer. -/
def db6 : DB :=
  match r6 with
  | .ok (d, _, _) => d
  | .error _ => dbAB

/-- The stored inflow transaction of the cross-currency transfer. -/
def inc6 : Transaction :=
  match r6 with
  | .ok (_, _, i) => i
  | .error _ => ⟨0, 0, 0, "", .income, none⟩

/-- C6 counterexample: create_transfer from a USD account to a EUR
account succeeds and stores an inflow transaction carrying currency
"USD" on the EUR account, so not every transaction-creating operation
rejects a currency mismatch, and a stored transaction currency can
differ from its account currency. -/
theorem transfer_currency_mismatch_stored :
    Except.isOk r6 = true ∧ inc6 ∈ db6.transactions ∧
    inc6.account = accB.id ∧ inc6.currency = "USD" ∧
    accB.currency = "EUR" ∧ ("USD" : String) ≠ "EUR" := by
  decide

/-- C6 (amended): the serializer validation rejects a (non-empty)
currency that differs from the posting account currency before any row
is written, but Transaction.create_transfer performs no currency check
against the destination account: it stamps both legs with the
caller-supplied or from-account currency, so the stored inflow row on
the destination carries the from-account currency regardless of the
destination account currency. -/
theorem currency_validation_scope (acc : Account) (c : String)
    (ty : Option TxType) (amt : Money) (dest : Option Account)
    (hamt : amt ≠ 0) (hc : c ≠ "") (hacc : acc.currency ≠ "")
    (hne : c ≠ acc.currency)
    (db : DB) (A B : Account) (amt2 : Money) (hAB : A.id ≠ B.id)
    (hWF : ∀ t ∈ db.transactions, t.id < db.nextTx) :
    TransactionSerializer.validate ⟨some acc, some c, ty, some amt, dest⟩ =
      .error .currencyMismatch ∧
    (match Transaction.create_transfer db A B amt2 none with
     | .error _ => False
     | .ok (db', _, inc) =>
         inc ∈ db'.transactions ∧ inc.account = B.id ∧
         inc.currency = A.currency) := by
  constructor
  · unfold TransactionSerializer.validate
    simp [hamt, hc, hacc, hne]
  · obtain ⟨db', hok, htx, hadj, haud⟩ :=
      create_transfer_spec db A B amt2 none hAB hWF
    rw [hok]
    refine ⟨?_, rfl, rfl⟩
    rw [htx]
    simp

/-- Witness for currency_validation_scope: a EUR-denominated expense on
the USD account is rejected by the serializer, while the model-level
transfer to the EUR account succeeds. -/
theorem currency_validation_scope_witness :
    TransactionSerializer.validate
        ⟨some accA, some ("EUR"), some TxType.expense, some 100, none⟩ =
      .error .currencyMismatch ∧
    (match Transaction.create_transfer dbAB accA accB 500 none with
     | .error _ => False
     | .ok (db', _, inc) =>
         inc ∈ db'.transactions ∧ inc.account = accB.id ∧
         inc.currency = accA.currency) :=
  currency_validation_scope accA ("EUR") (some TxType.expense) 100 none
    (by decide) (by decide) (by decide) (by decide)
    dbAB accA accB 500 (by decide) (by simp [dbAB])

/-- Database after one plain transaction create on the fixture
database. -/
def db8 : DB := (createTransaction dbAB 1 500 "USD" TxType.income).1

/-- C8 counterexample: a single Transaction create writes two AuditLog
entries for the event (the handlers are registered twice), not exactly
one. -/
theorem audit_entries_not_single :
    (db8.audit.filter (fun e => e.object_type == "Transaction"
        && e.object_id == 1 && e.action == "created")).length = 2 ∧
    (2 : Nat) ≠ 1 := by
  decide

/-- C8 (amended): every create, update, or delete of a Transaction or
Adjustment writes exactly two AuditLog entries for that mutation event
and entity, because the audit handlers are registered twice (the
module-level receiver decorators in models.py and the duplicate handler
set connected by signals.register_signals() from FinancesConfig.ready());
and the log is append-only: every ledger operation only appends audit
rows (a transfer appends two entries for each of its four save events),
and none rewrites or removes existing ones. -/
theorem audit_double_emission_append_only :
    (∀ db accId amt cur ty, (createTransaction db accId amt cur ty).1.audit =
      db.audit ++ [⟨"Transaction", db.nextTx, "created"⟩,
                   ⟨"Transaction", db.nextTx, "created"⟩]) ∧
    (∀ db accId o n reason, (createAdjustment db accId o n reason).1.audit =
      db.audit ++ [⟨"Adjustment", db.nextAdj, "created"⟩,
                   ⟨"Adjustment", db.nextAdj, "created"⟩]) ∧
    (∀ db t, (deleteTransaction db t).audit =
      db.audit ++ [⟨"Transaction", t.id, "deleted"⟩,
                   ⟨"Transaction", t.id, "deleted"⟩]) ∧
    (∀ db a, (deleteAdjustment db a).audit =
      db.audit ++ [⟨"Adjustment", a.id, "deleted"⟩,
                   ⟨"Adjustment", a.id, "deleted"⟩]) ∧
    (∀ db (acc : Account) ss today db' b,
      acc.recalculate_balance db ss today = .ok (db', b) →
      db'.audit = db.audit) ∧
    (∀ db orig p db' rev,
      Adjustment.create_reverse db orig p = .ok (db', rev) →
      db'.audit = db.audit ++ [⟨"Adjustment", db.nextAdj, "created"⟩,
                               ⟨"Adjustment", db.nextAdj, "created"⟩]) ∧
    (∀ db A B amt cur db' out inc,
      Transaction.create_transfer db A B amt cur = .ok (db', out, inc) →
      db'.audit = db.audit ++
        [⟨"Transaction", db.nextTx, "created"⟩,
         ⟨"Transaction", db.nextTx, "created"⟩,
         ⟨"Transaction", db.nextTx + 1, "created"⟩,
         ⟨"Transaction", db.nextTx + 1, "created"⟩,
         ⟨"Transaction", db.nextTx, "updated"⟩,
         ⟨"Transaction", db.nextTx, "updated"⟩,
         ⟨"Transaction", db.nextTx + 1, "updated"⟩,
         ⟨"Transaction", db.nextTx + 1, "updated"⟩]) := by
  refine ⟨?_, ?_, ?_, ?_, ?_, ?_, ?_⟩
  · intro db accId amt cur ty
    exact createTransaction_audit db accId amt cur ty
  · intro db accId o n reason
    exact createAdjustment_audit db accId o n reason
  · intro db t
    unfold deleteTransaction
    rw [transactionPostDelete_audit]
  · intro db a
    unfold deleteAdjustment
    rw [adjustmentPostDelete_audit]
  · intro db acc ss today db' b h
    unfold Account.recalculate_balance at h
    cases ss with
    | false =>
      rw [if_neg (by simp)] at h
      rw [Except.ok.injEq, Prod.mk.injEq] at h
      rw [← h.1]
      rfl
    | true =>
      rw [if_pos rfl] at h
      by_cases hany :
          (db.snapshots.any fun s => s.account == acc.id && s.date == today)
            = true
      · rw [if_pos hany] at h
        cases h
      · rw [if_neg hany] at h
        rw [Except.ok.injEq, Prod.mk.injEq] at h
        rw [← h.1]
        rfl
  · intro db orig p db' rev h
    unfold Adjustment.create_reverse at h
    by_cases h1 : (orig.reversal_of.isSome || orig.is_reversal) = true
    · rw [if_pos h1] at h
      cases h
    · rw [if_neg h1] at h
      by_cases h2 :
          (db.adjustments.any fun a => a.reversal_of == some orig.id) = true
      · rw [if_pos h2] at h
        cases h
      · rw [if_neg h2] at h
        rw [Except.ok.injEq, Prod.mk.injEq] at h
        rw [← h.1, adjustmentPostSave_audit]
        rfl
  · intro db A B amt cur db' out inc h
    unfold Transaction.create_transfer at h
    by_cases hcond : (A.id == B.id) = true
    · rw [if_pos hcond] at h
      cases h
    · rw [if_neg hcond] at h
      rw [Except.ok.injEq] at h
      have hdb : _ = db' := congrArg Prod.fst h
      rw [← hdb]
      simp only [createTransaction_snd, createTransaction_nextTx,
        transactionPostSave_nextTx]
      simp only [transactionPostSave_audit, updateTx_audit,
        createTransaction_audit, createTransaction_nextTx,
        transactionPostSave_nextTx]
      simp

/-- Witness for audit_double_emission_append_only: the concrete create
event from db8 and the scenario reversal. -/
theorem audit_double_emission_append_only_witness :
    (createTransaction dbAB 1 500 "USD" TxType.income).1.audit =
      dbAB.audit ++ [⟨"Transaction", dbAB.nextTx, "created"⟩,
                     ⟨"Transaction", dbAB.nextTx, "created"⟩] ∧
    db7c.audit = db7b.audit ++
      [⟨"Adjustment", db7b.nextAdj, "created"⟩,
       ⟨"Adjustment", db7b.nextAdj, "created"⟩] :=
  ⟨audit_double_emission_append_only.1 dbAB 1 500 "USD" TxType.income,
   audit_double_emission_append_only.2.2.2.2.2.1 db7b adj7 none db7c rev9 rfl⟩

end Finances
